import Mathlib

/-!
Verification of the OpenEIS repository against its specification.

Two components are covered:

1. The `excessive_nighttime` night-lighting detector
   (`openeis/applications/utils/sensor_suitcase/excessive_night_lighting.py`).
   The implementation file itself is absent from the available sources (only
   its unit test `utest_excessive_night_lighting.py` is present), so the
   detector is modelled from the specification's words (spec §3, §4.1, §8).

2. The REST serializers `CreateFileSerializer.validate_file` and
   `SensorIngestSerializer.validate` from `openeis/projects/serializers.py`,
   embedded directly from the source.
-/

namespace OpenEIS

/-- A timestamp, as produced by Python `datetime.datetime`; the detector
only ever inspects the `hour` field. -/
structure PyDateTime where
  year : Nat
  month : Nat
  day : Nat
  hour : Nat
  minute : Nat
deriving DecidableEq

/-- A `(timestamp, value)` sample of the light sensor. -/
abbrev Sample := PyDateTime × Int

/-- An ordered series of samples. -/
abbrev Series := List Sample

/-- Modelled from the spec: `excessive_night_lighting.py` is missing from
the sources, and spec §4.1 filters the series "to samples whose timestamp's
hour falls within the night window (threshold_hour through some end-of-night
boundary)".  The end-of-night boundary is left open by the spec (§9 open
question); following §3's "sunrise/midnight boundary" we take the midnight
boundary, so an hour `h` is in the night window exactly when
`threshold_hour ≤ h`. -/
def inNightWindow (threshold_hour : Nat) (h : Nat) : Bool :=
  decide (threshold_hour ≤ h)

/-- Modelled from the spec: the filtering step of §4.1 — the sub-series of
samples whose timestamp's hour lies in the night window. -/
def nightSamples (series : Series) (threshold_hour : Nat) : Series :=
  series.filter (fun p => inNightWindow threshold_hour p.1.hour)

/-- Modelled from the spec: the missing detector
`excessive_nighttime(series, threshold_hour)` of §4.1.  It filters the
series to night-window samples and reports detection when the filtered
values indicate lighting is active, using the spec's suggested all-nonzero
criterion; an empty filtered series is defined as no detection (§4.1 edge
case). -/
def excessive_nighttime (series : Series) (threshold_hour : Nat) : Bool :=
  let night := nightSamples series threshold_hour
  !night.isEmpty && night.all (fun p => p.2 != 0)

/-- Modelled from the spec: one invocation of the detector as seen by the
runtime — it receives the stored series, the stored threshold and the
detector's persisted state, and yields the verdict together with the three
of them as they stand after the call.  Spec §3 declares the detector a pure
function with no mutation and no persisted state, so the call leaves all
three untouched and the verdict is `excessive_nighttime` of the inputs. -/
def excessive_nighttime_call (series : Series) (threshold_hour : Nat)
    (persisted : List Bool) : Bool × Series × Nat × List Bool :=
  (excessive_nighttime series threshold_hour, series, threshold_hour, persisted)

/-- The concrete series of the unit test
`test_excessive_night_light_ones`: 13 samples starting 2014-01-01T00:00
with 6-hour spacing (ending 2014-01-04T00:00), every value 1. -/
def testSeriesOnes : Series :=
  [(⟨2014, 1, 1, 0, 0⟩, 1), (⟨2014, 1, 1, 6, 0⟩, 1),
   (⟨2014, 1, 1, 12, 0⟩, 1), (⟨2014, 1, 1, 18, 0⟩, 1),
   (⟨2014, 1, 2, 0, 0⟩, 1), (⟨2014, 1, 2, 6, 0⟩, 1),
   (⟨2014, 1, 2, 12, 0⟩, 1), (⟨2014, 1, 2, 18, 0⟩, 1),
   (⟨2014, 1, 3, 0, 0⟩, 1), (⟨2014, 1, 3, 6, 0⟩, 1),
   (⟨2014, 1, 3, 12, 0⟩, 1), (⟨2014, 1, 3, 18, 0⟩, 1),
   (⟨2014, 1, 4, 0, 0⟩, 1)]

/-- A one-sample series whose sample (hour 0, value 1) lies outside the
night window for threshold 8. -/
def c1Series : Series := [(⟨2014, 1, 1, 0, 0⟩, 1)]

/-- Membership in the night filter. -/
theorem mem_nightSamples {p : Sample} {series : Series} {thr : Nat} :
    p ∈ nightSamples series thr ↔
      p ∈ series ∧ inNightWindow thr p.1.hour = true := by
  simp [nightSamples, List.mem_filter]

/-- C1 counterexample: `c1Series` is non-empty, every one of its
night-window samples (there are none) is non-zero, yet the detector
returns `false`, refuting the claim as stated. -/
theorem excessive_nighttime_vacuous_night_false :
    c1Series ≠ [] ∧
    c1Series.all (fun p => !inNightWindow 8 p.1.hour || p.2 != 0) = true ∧
    excessive_nighttime c1Series 8 = false := by
  refine ⟨by decide, by decide, by decide⟩

/-- C1 (amended): for every series and threshold, if at least one sample
falls in the night window and every night-window sample has a non-zero
value, then `excessive_nighttime` returns `true`. -/
theorem excessive_nighttime_allNonzero_detects (series : Series) (thr : Nat)
    (hne : nightSamples series thr ≠ [])
    (hnz : ∀ p ∈ nightSamples series thr, p.2 ≠ 0) :
    excessive_nighttime series thr = true := by
  have hall : (nightSamples series thr).all (fun p => p.2 != 0) = true := by
    rw [List.all_eq_true]
    intro p hp
    simpa using hnz p hp
  have hemp : (nightSamples series thr).isEmpty = false := by
    simpa [List.isEmpty_iff] using hne
  simp [excessive_nighttime, hall, hemp]

/-- C1 witness: a concrete series with one night sample of value 5. -/
theorem excessive_nighttime_allNonzero_detects_witness :
    excessive_nighttime [(⟨2014, 1, 1, 23, 0⟩, 5)] 8 = true :=
  excessive_nighttime_allNonzero_detects [(⟨2014, 1, 1, 23, 0⟩, 5)] 8
    (by decide) (by decide)

/-- C2: for every non-empty series and threshold, if every sample whose
hour falls in the night window has value zero, then the detector returns
`false`. -/
theorem excessive_nighttime_allZero_no_detection (series : Series) (thr : Nat)
    (hne : series ≠ [])
    (hz : ∀ p ∈ series, inNightWindow thr p.1.hour = true → p.2 = 0) :
    excessive_nighttime series thr = false := by
  cases hns : nightSamples series thr with
  | nil => simp [excessive_nighttime, hns]
  | cons a l =>
    have ha : a ∈ nightSamples series thr := by
      rw [hns]; exact List.mem_cons_self a l
    have hmem := mem_nightSamples.mp ha
    have ha0 : a.2 = 0 := hz a hmem.1 hmem.2
    simp [excessive_nighttime, hns, ha0]

/-- C2 witness: a two-sample series, night sample has value 0. -/
theorem excessive_nighttime_allZero_no_detection_witness :
    excessive_nighttime [(⟨2014, 1, 1, 6, 0⟩, 3), (⟨2014, 1, 1, 22, 0⟩, 0)] 8
      = false :=
  excessive_nighttime_allZero_no_detection
    [(⟨2014, 1, 1, 6, 0⟩, 3), (⟨2014, 1, 1, 22, 0⟩, 0)] 8
    (by decide) (by decide)

/-- C3: the detector returns `false` whenever no sample survives the night
filter: on the empty series, and on any series whose night filter is
empty. -/
theorem excessive_nighttime_empty_night_false (thr : Nat) :
    excessive_nighttime [] thr = false ∧
    (∀ series : Series, nightSamples series thr = [] →
      excessive_nighttime series thr = false) := by
  refine ⟨rfl, ?_⟩
  intro series h
  simp [excessive_nighttime, h]

/-- C3 witness: a series with one early-morning sample has an empty night
filter for threshold 8 and yields `false`. -/
theorem excessive_nighttime_empty_night_false_witness :
    excessive_nighttime [(⟨2014, 1, 1, 3, 0⟩, 7)] 8 = false :=
  (excessive_nighttime_empty_night_false 8).2
    [(⟨2014, 1, 1, 3, 0⟩, 7)] (by decide)

/-- C4: on the unit test's concrete series (13 samples from
2014-01-01T00:00 with 6-hour spacing, all values 1) with threshold 8, the
detector returns `true`. -/
theorem excessive_nighttime_test_ones :
    excessive_nighttime testSeriesOnes 8 = true := by decide

/-- C5: the verdict depends only on the night-window samples — two series
with the same night filter get the same verdict. -/
theorem excessive_nighttime_depends_only_on_night_window
    (s₁ s₂ : Series) (thr : Nat)
    (h : nightSamples s₁ thr = nightSamples s₂ thr) :
    excessive_nighttime s₁ thr = excessive_nighttime s₂ thr := by
  simp [excessive_nighttime, h]

/-- C5 witness: two series differing only in a daytime sample share the
night filter and the verdict. -/
theorem excessive_nighttime_depends_only_on_night_window_witness :
    excessive_nighttime [(⟨2014, 1, 1, 23, 0⟩, 1)] 8 =
      excessive_nighttime [(⟨2014, 1, 1, 2, 0⟩, 9), (⟨2014, 1, 1, 23, 0⟩, 1)] 8 :=
  excessive_nighttime_depends_only_on_night_window
    [(⟨2014, 1, 1, 23, 0⟩, 1)]
    [(⟨2014, 1, 1, 2, 0⟩, 9), (⟨2014, 1, 1, 23, 0⟩, 1)] 8 (by decide)

/-- C6: calling the detector a second time — from the state the first call
left behind — yields the identical verdict: the detector is deterministic
and idempotent across invocations. -/
theorem excessive_nighttime_idempotent (series : Series) (thr : Nat)
    (st : List Bool) :
    (excessive_nighttime_call series thr
        (excessive_nighttime_call series thr st).2.2.2).1 =
      (excessive_nighttime_call series thr st).1 := rfl

/-- C7: the detector is pure — a call returns the series, the threshold
and the persisted state unchanged, and its verdict is a function of the
series and threshold alone. -/
theorem excessive_nighttime_call_pure (series : Series) (thr : Nat)
    (st : List Bool) :
    (excessive_nighttime_call series thr st).2.1 = series ∧
    (excessive_nighttime_call series thr st).2.2.1 = thr ∧
    (excessive_nighttime_call series thr st).2.2.2 = st ∧
    (excessive_nighttime_call series thr st).1 =
      excessive_nighttime series thr :=
  ⟨rfl, rfl, rfl, rfl⟩

/-!
`openeis/projects/serializers.py`, embedded from the source.

`CreateFileSerializer.validate_file(self, attrs, source)`:
  - if `self.project is None`, returns `attrs` without touching the file;
  - otherwise it iterates the `CSVFile` wrapper over the uploaded file:
    `cols = len(next(csv_file))`, then every further row must have `cols`
    columns or `csv.Error('Inconsistent number of columns')` is raised;
    any `csv.Error` (from the wrapper or from the check) is converted to
    `ValidationError(str(e))`; on success `file.seek(0)` runs and `attrs`
    is returned.  `next()` on a zero-row stream raises `StopIteration`,
    which is not a `csv.Error` and propagates uncaught.

The `CSVFile` wrapper itself is not among the sources; its behaviour is
abstracted as a `CsvStream`: the rows it yields in order, followed by an
optional `csv.Error` message raised after them (at construction or at the
first `next()` when no row was yielded).
-/

/-- The rows a `CSVFile` yields, and the `csv.Error` message it raises
after them, if any. -/
structure CsvStream where
  rows : List (List String)
  err : Option String
deriving DecidableEq

/-- The uploaded file as `validate_file` sees it: its current read
position and the CSV stream obtained by reading it. -/
structure UploadedFile where
  pos : Nat
  stream : CsvStream
deriving DecidableEq

/-- Outcome of a call to `validate_file`: a normal return of the attrs
(with whether the file was read and the file's final read position), a
raised `ValidationError`, or an uncaught `StopIteration`. -/
inductive FileValidation (A : Type) where
  | ret (attrs : A) (fileRead : Bool) (finalPos : Nat)
  | validationError (msg : String)
  | stopIteration
deriving DecidableEq

/-- The `for row in csv_file` loop body: the first row whose length
differs from `cols` raises `csv.Error('Inconsistent number of columns')`. -/
def checkColumns (cols : Nat) : List (List String) → Option String
  | [] => none
  | row :: rest =>
    if row.length ≠ cols then some "Inconsistent number of columns"
    else checkColumns cols rest

/-- `CreateFileSerializer.validate_file`, embedded from
`serializers.py` lines 43–57.  `project` is the serializer's
`self.project`; `attrs` stands for the attrs dict; `file` is
`attrs[source].file`. -/
def CreateFileSerializer.validate_file {A : Type} (project : Option Unit)
    (attrs : A) (file : UploadedFile) : FileValidation A :=
  match project with
  | none => .ret attrs false file.pos
  | some _ =>
    match file.stream.rows with
    | [] =>
      match file.stream.err with
      | some e => .validationError e
      | none => .stopIteration
    | first :: rest =>
      match checkColumns first.length rest with
      | some e => .validationError e
      | none =>
        match file.stream.err with
        | some e => .validationError e
        | none => .ret attrs true 0

/-- `checkColumns` finds no offender exactly when every row has `cols`
columns. -/
theorem checkColumns_eq_none_iff (cols : Nat) (rows : List (List String)) :
    checkColumns cols rows = none ↔ ∀ row ∈ rows, row.length = cols := by
  induction rows with
  | nil => simp [checkColumns]
  | cons r rest ih =>
    by_cases h : r.length = cols
    · simp [checkColumns, h, ih]
    · simp [checkColumns, h]

/-- C9: without a project, `validate_file` returns attrs unchanged and the
file unread; with a project, it raises `ValidationError` exactly when some
row's column count differs from the first row's, or the CSV reader raises
a `csv.Error`; and any normal return yields the attrs unchanged with the
file's read position reset to 0. -/
theorem validate_file_spec {A : Type} (attrs : A) (file : UploadedFile) :
    (CreateFileSerializer.validate_file none attrs file =
      .ret attrs false file.pos) ∧
    ((∃ msg, CreateFileSerializer.validate_file (some ()) attrs file =
        .validationError msg) ↔
      (file.stream.err ≠ none ∨
        ∃ first rest, file.stream.rows = first :: rest ∧
          ∃ row ∈ rest, row.length ≠ first.length)) ∧
    (∀ (a : A) (b : Bool) (p : Nat),
      CreateFileSerializer.validate_file (some ()) attrs file =
        .ret a b p → a = attrs ∧ p = 0) := by
  obtain ⟨fpos, rows, err⟩ := file
  refine ⟨rfl, ?_, ?_⟩
  · cases rows with
    | nil =>
      cases err with
      | none => simp [CreateFileSerializer.validate_file]
      | some e =>
        simp only [CreateFileSerializer.validate_file]
        constructor
        · intro _; left; simp
        · intro _; exact ⟨e, rfl⟩
    | cons first rest =>
      cases hc : checkColumns first.length rest with
      | some e =>
        simp only [CreateFileSerializer.validate_file, hc]
        constructor
        · intro _
          right
          refine ⟨first, rest, rfl, ?_⟩
          by_contra hno
          push_neg at hno
          have : checkColumns first.length rest = none :=
            (checkColumns_eq_none_iff _ _).mpr hno
          rw [this] at hc
          exact Option.noConfusion hc
        · intro _; exact ⟨e, rfl⟩
      | none =>
        cases err with
        | some e =>
          simp only [CreateFileSerializer.validate_file, hc]
          constructor
          · intro _; left; simp
          · intro _; exact ⟨e, rfl⟩
        | none =>
          simp only [CreateFileSerializer.validate_file, hc]
          constructor
          · rintro ⟨msg, hmsg⟩
            exact FileValidation.noConfusion hmsg
          · rintro (h | ⟨f, r, hr, row, hrow, hlen⟩)
            · exact absurd rfl h
            · obtain ⟨rfl, rfl⟩ : f = first ∧ r = rest := by
                injection hr with h1 h2
                exact ⟨h1.symm, h2.symm⟩
              exact absurd ((checkColumns_eq_none_iff _ _).mp hc row hrow) hlen
  · intro a b p h
    cases rows with
    | nil =>
      cases err with
      | none => exact FileValidation.noConfusion h
      | some e => exact FileValidation.noConfusion h
    | cons first rest =>
      cases hc : checkColumns first.length rest with
      | some e =>
        simp only [CreateFileSerializer.validate_file, hc] at h
        exact FileValidation.noConfusion h
      | none =>
        cases err with
        | some e =>
          simp only [CreateFileSerializer.validate_file, hc] at h
          exact FileValidation.noConfusion h
        | none =>
          simp only [CreateFileSerializer.validate_file, hc] at h
          injection h with h1 h2 h3
          exact ⟨h1.symm, h3.symm⟩

/-- A concrete well-formed uploaded file: two rows of two columns, read
position 5, no reader error. -/
def sampleUpload : UploadedFile :=
  ⟨5, ⟨[["a", "b"], ["c", "d"]], none⟩⟩

/-- C9 witness: on `sampleUpload`, no-project validation returns attrs
unchanged with the file unread, and with a project the normal return is
the attrs with position 0. -/
theorem validate_file_spec_witness :
    CreateFileSerializer.validate_file none (42 : Nat) sampleUpload =
      .ret 42 false 5 ∧ ((42 : Nat) = 42 ∧ (0 : Nat) = 0) :=
  ⟨(validate_file_spec (42 : Nat) sampleUpload).1,
   (validate_file_spec (42 : Nat) sampleUpload).2.2 42 true 0 rfl⟩

/-!
`SensorIngestSerializer.validate(self, attrs)`, `serializers.py` lines
202–217: it compares the set of file keys of the sensor map definition
(`attrs['map'].map['files'].keys()`) with the set of names of the
submitted files (`{f.name for f in attrs['files']}`), collects a
missing-files message and an extra-files message, raises
`ValidationError` when either is present and returns `attrs` otherwise.
The two `XXX` comments (duplicate DataFiles, file signatures) mark checks
the code does not perform.  Python's `set` ordering being arbitrary, an
error message is modelled as its constructor together with the set of
names it reports.
-/

/-- An entry of the `errors` list built by `validate`. -/
inductive IngestError where
  | missingFiles (names : Finset String)
  | extraFiles (names : Finset String)
deriving DecidableEq

/-- The attrs dict as `SensorIngestSerializer.validate` sees it:
`mapFiles` is the key set of `attrs['map'].map['files']`, `fileNames` the
list of names of the submitted files (`attrs['files']`, duplicates
possible), and `rest` the remaining fields, untouched by `validate`. -/
structure SensorIngestAttrs (A : Type) where
  mapFiles : Finset String
  fileNames : List String
  rest : A
deriving DecidableEq

/-- `SensorIngestSerializer.validate`, embedded from `serializers.py`
lines 202–217: raises (`Except.error`) the collected messages when files
are missing or extra, returns the attrs unchanged otherwise. -/
def SensorIngestSerializer.validate {A : Type} (attrs : SensorIngestAttrs A) :
    Except (List IngestError) (SensorIngestAttrs A) :=
  let map_files := attrs.mapFiles
  let files := attrs.fileNames.toFinset
  let missing := map_files \ files
  let extra := files \ map_files
  let errors :=
    (if missing = ∅ then [] else [IngestError.missingFiles missing]) ++
    (if extra = ∅ then [] else [IngestError.extraFiles extra])
  if errors.isEmpty then Except.ok attrs else Except.error errors

/-- C10: `validate` returns the attrs unchanged exactly when the set of
submitted file names equals the map's file-key set; otherwise it raises a
`ValidationError` carrying the missing-files message exactly when names
are missing and the extra-files message exactly when names are extra.
Duplicate submitted names are invisible to it (only the name set enters). -/
theorem sensorIngest_validate_spec {A : Type} (attrs : SensorIngestAttrs A) :
    (SensorIngestSerializer.validate attrs = Except.ok attrs ↔
      attrs.fileNames.toFinset = attrs.mapFiles) ∧
    (attrs.fileNames.toFinset ≠ attrs.mapFiles →
      SensorIngestSerializer.validate attrs = Except.error
        ((if attrs.mapFiles \ attrs.fileNames.toFinset = ∅ then []
          else [IngestError.missingFiles
            (attrs.mapFiles \ attrs.fileNames.toFinset)]) ++
         (if attrs.fileNames.toFinset \ attrs.mapFiles = ∅ then []
          else [IngestError.extraFiles
            (attrs.fileNames.toFinset \ attrs.mapFiles)]))) := by
  have key : attrs.fileNames.toFinset = attrs.mapFiles ↔
      (attrs.mapFiles \ attrs.fileNames.toFinset = ∅ ∧
       attrs.fileNames.toFinset \ attrs.mapFiles = ∅) := by
    constructor
    · intro h; simp [h]
    · rintro ⟨h1, h2⟩
      exact Finset.Subset.antisymm
        (Finset.sdiff_eq_empty_iff_subset.mp h2)
        (Finset.sdiff_eq_empty_iff_subset.mp h1)
  by_cases hm : attrs.mapFiles \ attrs.fileNames.toFinset = ∅ <;>
    by_cases he : attrs.fileNames.toFinset \ attrs.mapFiles = ∅ <;>
    simp [SensorIngestSerializer.validate, hm, he, key]

/-- A concrete attrs dict whose submitted names match the map keys. -/
def matchingIngest : SensorIngestAttrs Nat :=
  ⟨{"a"}, ["a"], 0⟩

/-- A concrete attrs dict with one missing and one extra name. -/
def mismatchedIngest : SensorIngestAttrs Nat :=
  ⟨{"a"}, ["b"], 0⟩

/-- C10 witness: the matching attrs dict comes back unchanged, and the
mismatched one raises the two collected messages. -/
theorem sensorIngest_validate_spec_witness :
    SensorIngestSerializer.validate matchingIngest =
      Except.ok matchingIngest ∧
    SensorIngestSerializer.validate mismatchedIngest = Except.error
      ((if mismatchedIngest.mapFiles \ mismatchedIngest.fileNames.toFinset
          = ∅ then []
        else [IngestError.missingFiles
          (mismatchedIngest.mapFiles \ mismatchedIngest.fileNames.toFinset)]) ++
       (if mismatchedIngest.fileNames.toFinset \ mismatchedIngest.mapFiles
          = ∅ then []
        else [IngestError.extraFiles
          (mismatchedIngest.fileNames.toFinset \ mismatchedIngest.mapFiles)])) :=
  ⟨(sensorIngest_validate_spec matchingIngest).1.mpr (by decide),
   (sensorIngest_validate_spec mismatchedIngest).2 (by decide)⟩

end OpenEIS
